import Mathlib

/-!
Shallow embedding of the weekly-report multi-agent pipeline
(`src/tools/document_parser.py`, `src/agents/*.py`, `src/main.py`) and
proofs about its parsing and orchestration behaviour.

Strings are modelled as Lean `String`/`List Char`; the generative-model
backend is modelled as an oracle `String → String` (one oracle per call
site), matching how the spec treats the completion service as an
opaque text-completion collaborator.
-/

namespace WeeklyReport

/-! ### Python string primitives

Here `pyIsSpace` models the Python `str.strip` / regex `\s` whitespace classes for
the character repertoire that occurs in this repository (ASCII whitespace
plus the ideographic space U+3000). -/

def pyIsSpace (c : Char) : Bool :=
  c = ' ' || c = '\t' || c = '\n' || c = '\r' || c = '\x0b' || c = '\x0c' || c = '　'

/-- Python `str.strip()` on a character list. -/
def pyStrip (s : List Char) : List Char :=
  ((s.dropWhile pyIsSpace).reverse.dropWhile pyIsSpace).reverse

/-- Python `str.strip()` on a `String`. -/
def pyStripS (s : String) : String :=
  (pyStrip s.toList).asString

/-- Test `startsWithL p s` : `p` is a prefix of `s` (exact character match). -/
def startsWithL : List Char → List Char → Bool
  | [], _ => true
  | _ :: _, [] => false
  | a :: p, b :: s => a = b && startsWithL p s

/-- Model of the Python substring test `needle in hay`. -/
def hasSub (needle : List Char) : List Char → Bool
  | [] => startsWithL needle []
  | c :: rest => startsWithL needle (c :: rest) || hasSub needle rest

/-- Model of the Python substring test on two values of type `String`. -/
def hasSubS (needle hay : String) : Bool :=
  hasSub needle.toList hay.toList

/-- Python `text.split("\n")`: splits at every newline, keeping empty
pieces; the empty string yields `[""]`. -/
def splitOnNl : List Char → List (List Char)
  | [] => [[]]
  | c :: rest =>
    let r := splitOnNl rest
    if c = '\n' then [] :: r
    else
      match r with
      | [] => [[c]]
      | l :: ls => (c :: l) :: ls

/-- Source `response.split("\n")` as a list of values of type `String`. -/
def splitLines (s : String) : List String :=
  (splitOnNl s.toList).map List.asString

/-- Case-insensitive prefix strip: if (lower-casing both sides) `alt` is a
prefix of `s`, return the remainder.  Models `re.IGNORECASE` matching of a
literal alternative; `Char.toLower` agrees with Python for the ASCII and
Japanese characters used by the patterns. -/
def stripPrefCI : List Char → List Char → Option (List Char)
  | [], s => some s
  | _ :: _, [] => none
  | a :: p, b :: s => if a.toLower = b.toLower then stripPrefCI p s else none

end WeeklyReport

namespace WeeklyReport.DocumentParser

/-! ### `src/tools/document_parser.py`

Every pattern in `DocumentParser.patterns` has one of two shapes:
  * labeled : `(?:L1|L2|…)[：:]\s*(.+)`  (a label, a colon, the capture)
  * glyph   : `(?:G1|G2|…)\s*(.+)`        (a marker glyph, the capture)
searched with `re.search(pattern, line, re.IGNORECASE)` on an
already-stripped line.  `reSearch` implements exactly that: leftmost
position wins, alternatives are tried in listed order at each position,
`\s*` greedily skips whitespace and the capture `(.+)` (the rest of the
line) must be non-empty.  Because `parse` strips each line first, the
greedy no-backtracking reading used here coincides with the Python regex
engine on every input line. -/

inductive PatKind
  | labeled
  | glyph
deriving DecidableEq

structure Pat where
  kind : PatKind
  alts : List String
deriving DecidableEq

/-- Try one alternative of a pattern at the current position. Returns the
captured group (the text after the separator and whitespace). -/
def altMatchAt (k : PatKind) (alt : List Char) (s : List Char) : Option (List Char) :=
  match stripPrefCI alt s with
  | none => none
  | some rest =>
    match k with
    | .glyph =>
      let content := rest.dropWhile pyIsSpace
      if content.isEmpty then none else some content
    | .labeled =>
      match rest with
      | [] => none
      | c :: rest2 =>
        if c = '：' || c = ':' then
          let content := rest2.dropWhile pyIsSpace
          if content.isEmpty then none else some content
        else none

/-- Try a pattern at the current position (alternatives in listed order). -/
def patMatchAt (p : Pat) (s : List Char) : Option (List Char) :=
  p.alts.findSome? fun a => altMatchAt p.kind a.toList s

/-- Model of `re.search`: scan positions left to right, return the captured
group of the first match. -/
def reSearch (p : Pat) : List Char → Option (List Char)
  | [] => none
  | c :: rest =>
    match patMatchAt p (c :: rest) with
    | some r => some r
    | none => reSearch p rest

/-- Source `self.patterns["achievements"]`. -/
def achievementPats : List Pat :=
  [⟨.labeled, ["成果", "実績", "完了", "達成"]⟩,
   ⟨.glyph, ["✓", "✔", "☑"]⟩,
   ⟨.labeled, ["Done", "DONE", "done"]⟩]

/-- Source `self.patterns["tasks"]`. -/
def taskPats : List Pat :=
  [⟨.labeled, ["タスク", "作業", "進行中", "TODO"]⟩,
   ⟨.glyph, ["□", "▢", "☐"]⟩,
   ⟨.labeled, ["In Progress", "IN PROGRESS", "WIP"]⟩]

/-- Source `self.patterns["issues"]`. -/
def issuePats : List Pat :=
  [⟨.labeled, ["課題", "問題", "懸念", "リスク"]⟩,
   ⟨.glyph, ["⚠", "⚠️", "❗", "❌"]⟩,
   ⟨.labeled, ["Issue", "ISSUE", "Problem", "PROBLEM"]⟩]

/-- Inner pattern loop with its `break`: the first pattern of the category
that matches the line wins; later patterns of the same category are not
tried. -/
def matchCategory (pats : List Pat) (line : List Char) : Option (List Char) :=
  pats.findSome? fun p => reSearch p line

/-- Collapse each whitespace run to a single space:
`re.sub(r"\s+", " ", text)`.  The flag records whether the previous
character was part of a whitespace run. -/
def collapseWsAux : Bool → List Char → List Char
  | _, [] => []
  | prevWs, c :: rest =>
    if pyIsSpace c then
      (if prevWs then [] else [' ']) ++ collapseWsAux true rest
    else
      c :: collapseWsAux false rest

def collapseWs (s : List Char) : List Char :=
  collapseWsAux false s

/-- The bullet glyph class of `_clean_text`: `[-・●◆◇○]`. -/
def cleanBullets : List Char := ['-', '・', '●', '◆', '◇', '○']

/-- Model of `re.sub(r"^\s*[-・●◆◇○]\s*", "", text)`: remove one leading bullet
glyph together with surrounding whitespace; if no bullet follows the
leading whitespace the text is unchanged. -/
def dropLeadingBullet (s : List Char) : List Char :=
  match s.dropWhile pyIsSpace with
  | c :: rest => if cleanBullets.contains c then rest.dropWhile pyIsSpace else s
  | [] => s

/-- Source `DocumentParser._clean_text`. -/
def cleanText (s : List Char) : List Char :=
  pyStrip (collapseWs (dropLeadingBullet s))

/-- The three category lists accumulated by `parse` / `_fallback_parse`. -/
structure Cats where
  achievements : List (List Char)
  tasks : List (List Char)
  issues : List (List Char)
deriving DecidableEq

def emptyCats : Cats := ⟨[], [], []⟩

def appendOpt (xs : List (List Char)) (o : Option (List Char)) : List (List Char) :=
  match o with
  | some c => xs ++ [cleanText c]
  | none => xs

/-- One iteration of the primary line loop of `parse`: the stripped line is
tested against the patterns of each category; the `break` only leaves the inner
pattern loop, so every category is tried and the line may be appended to
several categories. -/
def primaryStep (acc : Cats) (rawLine : List Char) : Cats :=
  let line := pyStrip rawLine
  if line.isEmpty then acc
  else
    ⟨appendOpt acc.achievements (matchCategory achievementPats line),
     appendOpt acc.tasks (matchCategory taskPats line),
     appendOpt acc.issues (matchCategory issuePats line)⟩

def primaryPass (lines : List (List Char)) : Cats :=
  lines.foldl primaryStep emptyCats

/-- The categories of the `section_keywords` dict of `_fallback_parse`, in
dict order. -/
inductive Cat
  | achievements
  | tasks
  | issues
deriving DecidableEq

def keywordsFor : Cat → List String
  | .achievements => ["成果", "実績", "完了", "achievement", "done"]
  | .tasks => ["タスク", "作業", "予定", "task", "todo"]
  | .issues => ["課題", "問題", "懸念", "issue", "problem"]

/-- Section-keyword scan of `_fallback_parse`: first category (in dict
order) with a keyword contained in the lower-cased line wins; with no
match the current section is kept. -/
def fallbackSection (line : List Char) (cur : Option Cat) : Option Cat :=
  let lower := line.map Char.toLower
  if (keywordsFor .achievements).any (fun k => hasSub k.toList lower) then some .achievements
  else if (keywordsFor .tasks).any (fun k => hasSub k.toList lower) then some .tasks
  else if (keywordsFor .issues).any (fun k => hasSub k.toList lower) then some .issues
  else cur

/-- Source `line.startswith(("-", "・", "●", "*", "+"))`. -/
def fbBullets : List Char := ['-', '・', '●', '*', '+']

def addTo (c : Cats) : Cat → List Char → Cats
  | .achievements, x => { c with achievements := c.achievements ++ [x] }
  | .tasks, x => { c with tasks := c.tasks ++ [x] }
  | .issues, x => { c with issues := c.issues ++ [x] }

structure FBState where
  cur : Option Cat
  res : Cats
deriving DecidableEq

/-- Source `line.startswith(("-", "・", "●", "*", "+"))`. -/
def startsBullet (line : List Char) : Bool :=
  match line with
  | c :: _ => fbBullets.contains c
  | [] => false

/-- One iteration of the `_fallback_parse` loop: update `current_section`,
then `if current_section and line.startswith(...)` collect the cleaned
line (when non-empty) into the current section. -/
def fallbackStep (st : FBState) (rawLine : List Char) : FBState :=
  let line := pyStrip rawLine
  if line.isEmpty then st
  else
    let cur := fallbackSection line st.cur
    match cur with
    | some cat =>
      if startsBullet line then
        let content := cleanText line
        if content.isEmpty then ⟨cur, st.res⟩ else ⟨cur, addTo st.res cat content⟩
      else ⟨cur, st.res⟩
    | none => ⟨cur, st.res⟩

/-- Source `DocumentParser._fallback_parse` (applied, as in the source, to the
original un-stripped lines; note its result dict has no `raw_text` key). -/
def fallbackParse (lines : List (List Char)) : Cats :=
  (lines.foldl fallbackStep ⟨none, emptyCats⟩).res

/-- The dict returned by `DocumentParser.parse`.  `raw_text` is an
`Option` because the fallback branch replaces the whole result dict with
one that has no `"raw_text"` key. -/
structure DPResult where
  achievements : List String
  tasks : List String
  issues : List String
  raw_text : Option String
deriving DecidableEq

/-- Condition `not any(result[cat] for cat in [...])` : all three primary category
lists are empty, so `parse` falls back to `_fallback_parse`. -/
def fallbackTriggered (text : String) : Bool :=
  let r := primaryPass (splitOnNl text.toList)
  r.achievements.isEmpty && r.tasks.isEmpty && r.issues.isEmpty

/-- Source `DocumentParser.parse`. -/
def parse (text : String) : DPResult :=
  let lines := splitOnNl text.toList
  let r := primaryPass lines
  if r.achievements.isEmpty && r.tasks.isEmpty && r.issues.isEmpty then
    let f := fallbackParse lines
    ⟨f.achievements.map List.asString, f.tasks.map List.asString,
     f.issues.map List.asString, none⟩
  else
    ⟨r.achievements.map List.asString, r.tasks.map List.asString,
     r.issues.map List.asString, some text⟩

end WeeklyReport.DocumentParser

namespace WeeklyReport

/-! ### `src/agents/reviewer.py` — `ReviewerAgent._parse_review_response` -/

/-- The four section tags of the review-response parser. -/
inductive RSection
  | feedback
  | suggestions
  | approval
  | score
deriving DecidableEq

/-- Loop state of `_parse_review_response`. `cur` is `current_section`. -/
structure RevState where
  feedback : String
  suggestions : List String
  approval : String
  score : Nat
  cur : Option RSection
deriving DecidableEq

/-- Initial values: `feedback = ""`, `suggestions = []`,
`approval = "要修正"`, `score = 0`, `current_section = None`. -/
def initRevState : RevState := ⟨"", [], "要修正", 0, none⟩

/-- Model of `int("".join(filter(str.isdigit, line)))` with the `ValueError`
(no digit characters) handler mapping to 0. -/
def scoreOf (line : String) : Nat :=
  let ds := line.toList.filter Char.isDigit
  if ds.isEmpty then 0 else ds.foldl (fun n c => 10 * n + (c.toNat - 48)) 0

/-- Source `line.startswith(tuple("123456789"))`. -/
def startsWith19 (line : String) : Bool :=
  match line.toList with
  | c :: _ => "123456789".toList.contains c
  | [] => false

/-- One iteration of the `for line in lines` loop of
`_parse_review_response`. -/
def revStep (st : RevState) (rawLine : String) : RevState :=
  let line := pyStripS rawLine
  if hasSubS "フィードバック" line then { st with cur := some .feedback }
  else if hasSubS "具体的な改善提案" line then { st with cur := some .suggestions }
  else if hasSubS "承認ステータス" line then { st with cur := some .approval }
  else if hasSubS "スコア" line then { st with cur := some .score }
  else if line ≠ "" then
    match st.cur with
    | some .feedback => { st with feedback := st.feedback ++ line ++ "\n" }
    | some .suggestions =>
      if startsWith19 line then { st with suggestions := st.suggestions ++ [line] } else st
    | some .approval =>
      if hasSubS "承認" line then { st with approval := line } else st
    | some .score => { st with score := scoreOf line }
    | none => st
  else st

/-- The dict returned by `_parse_review_response`. -/
structure RevResult where
  feedback : String
  suggestions : List String
  approval : String
  score : Nat
deriving DecidableEq

/-- Source `_parse_review_response` applied to the already-split line list. -/
def parseReviewLines (lines : List String) : RevResult :=
  let st := lines.foldl revStep initRevState
  ⟨pyStripS st.feedback, st.suggestions, st.approval, st.score⟩

/-- Source `ReviewerAgent._parse_review_response`. -/
def parseReviewResponse (response : String) : RevResult :=
  parseReviewLines (splitLines response)

/-! ### `src/agents/manager.py` — `ManagerAgent._parse_manager_response` -/

/-- The five section tags of the manager-response parser.  `advice` is the
改善提案・アドバイス section, whose content lines have no accumulation
branch in the source and are therefore discarded. -/
inductive MSection
  | comment
  | evaluation
  | advice
  | expectations
  | approval
deriving DecidableEq

structure MgrState where
  comment : String
  evaluation : List String
  expectations : String
  approval : String
  cur : Option MSection
deriving DecidableEq

/-- Initial values: `comment = ""`, `evaluation = []`,
`expectations = ""`, `approval = "承認"`, `current_section = None`. -/
def initMgrState : MgrState := ⟨"", [], "", "承認", none⟩

/-- Source `line.startswith("-")`; the expression
`(line.toList.drop 1).asString` below is the Python `line[1:]`. -/
def firstCharIsDash (line : String) : Bool :=
  match line.toList with
  | c :: _ => c = '-'
  | [] => false

/-- One iteration of the `for line in lines` loop of
`_parse_manager_response`. -/
def mgrStep (st : MgrState) (rawLine : String) : MgrState :=
  let line := pyStripS rawLine
  if hasSubS "総評" line then { st with cur := some .comment }
  else if hasSubS "特に評価する点" line then { st with cur := some .evaluation }
  else if hasSubS "改善提案" line || hasSubS "アドバイス" line then { st with cur := some .advice }
  else if hasSubS "来週への期待" line then { st with cur := some .expectations }
  else if hasSubS "承認ステータス" line then { st with cur := some .approval }
  else if line ≠ "" then
    match st.cur with
    | some .comment => { st with comment := st.comment ++ line ++ "\n" }
    | some .evaluation =>
      if firstCharIsDash line then
        { st with evaluation := st.evaluation ++ [pyStripS (line.toList.drop 1).asString] }
      else st
    | some .advice => st
    | some .expectations => { st with expectations := st.expectations ++ line ++ "\n" }
    | some .approval =>
      if hasSubS "承認" line || hasSubS "要確認" line then { st with approval := line } else st
    | none => st
  else st

/-- The dict returned by `_parse_manager_response`. -/
structure MgrResult where
  comment : String
  evaluation : List String
  expectations : String
  approval : String
deriving DecidableEq

def mgrFold (lines : List String) : MgrState :=
  lines.foldl mgrStep initMgrState

/-- Source `_parse_manager_response` applied to the already-split line list. -/
def parseManagerLines (lines : List String) : MgrResult :=
  let st := mgrFold lines
  ⟨pyStripS st.comment, st.evaluation, pyStripS st.expectations, st.approval⟩

/-- Source `ManagerAgent._parse_manager_response`. -/
def parseManagerResponse (response : String) : MgrResult :=
  parseManagerLines (splitLines response)

end WeeklyReport

namespace WeeklyReport

/-! ### Agent configuration and `BaseAgent.generate_response`

The completion model itself is external; each call site is modelled by an
oracle `gen : String → String`.  `generateResponse` reproduces the system
prompt prepending of `BaseAgent.generate_response`.  The system prompts
below reproduce the triple-quoted literals of `src/config/agent_config.py`
(including their source-level continuation-line indentation). -/

def reportWriterSystem : String :=
  "あなたは週報作成の専門家です。\n    議事録やNotionの更新情報から、簡潔で分かりやすい週報を作成してください。\n    重要な成果、進捗状況、課題を明確に整理することを心がけてください。"

def reviewerSystem : String :=
  "あなたは週報のレビュー担当者です。\n    提出された週報の内容を確認し、以下の観点から改善提案を行ってください：\n    - 内容の完全性と正確性\n    - 文章の明確性と読みやすさ\n    - 重要な情報の抜け漏れ\n    - 構成の論理性"

def managerSystem : String :=
  "あなたは部下の週報を確認する上司です。\n    建設的なフィードバックと励ましのコメントを提供してください。\n    成果を適切に評価し、次週への期待とアドバイスを含めてください。"

/-- Source `BaseAgent.generate_response`: prepend the configured system prompt
(when present) and invoke the model once. -/
def generateResponse (gen : String → String) (systemPrompt : Option String)
    (prompt : String) : String :=
  match systemPrompt with
  | some sp => gen (sp ++ "\n\n" ++ prompt)
  | none => gen prompt

/-! ### Prompt builders (f-strings of the three agents and the
revision prompt of the orchestrator) -/

/-- The prompt f-string of `ReviewerAgent._review_draft`. -/
def reviewPrompt (draft : String) : String :=
  "\n以下の週報ドラフトをレビューしてください。\n\n## 週報ドラフト\n" ++ draft ++
  "\n\n## レビュー観点\n1. 内容の完全性（必要な情報が含まれているか）\n2. 文章の明確性（誤解を招かない表現か）\n3. 構成の論理性（情報が適切に整理されているか）\n4. 具体性（数値や期限が明記されているか）\n\n## 出力形式\n以下の形式でレビュー結果を提供してください：\n\n### フィードバック\n[全体的な評価と主要な改善点]\n\n### 具体的な改善提案\n1. [改善提案1]\n2. [改善提案2]\n...\n\n### 承認ステータス\n[承認/条件付き承認/要修正]\n\n### スコア\n[10点満点での評価]\n"

/-- The prompt f-string of `ManagerAgent._generate_manager_comment` (the
review score is interpolated as `スコア: {review_score}/10`). -/
def managerPrompt (report : String) (reviewScore : Nat) : String :=
  "\nあなたは部下の週報を確認する上司として、以下の週報に対してコメントを提供してください。\n\n## 週報内容\n" ++ report ++
  "\n\n## レビュー結果\nスコア: " ++ toString reviewScore ++
  "/10\n\n## コメント作成のガイドライン\n1. 成果を適切に評価し、具体的に褒める\n2. 改善が必要な点があれば建設的にフィードバック\n3. 次週への期待とアドバイスを含める\n4. モチベーションを高める励ましの言葉を添える\n\n## 出力形式\n以下の形式でコメントを提供してください：\n\n### 総評\n[全体的な評価とコメント]\n\n### 特に評価する点\n- [評価点1]\n- [評価点2]\n\n### 改善提案・アドバイス\n- [提案1]\n- [提案2]\n\n### 来週への期待\n[次週に期待することや応援メッセージ]\n\n### 承認ステータス\n[承認/要確認]\n"

/-- Source `WeeklyReportSystem._create_improvement_prompt`. -/
def improvementPrompt (draft : String) (suggestions : List String) : String :=
  let suggestionsText := String.intercalate "\n" (suggestions.map (fun s => "- " ++ s))
  "\n以下の週報ドラフトを、レビューフィードバックに基づいて改善してください。\n\n## 元のドラフト\n" ++ draft ++
  "\n\n## 改善提案\n" ++ suggestionsText ++
  "\n\n改善版の週報を作成してください。形式は元のドラフトと同じにしてください。\n"

/-- Join `"- " ++ item` lines with the template placeholder semantics of
the f-string (the empty joined string renders
as `- なし`). -/
def bulletBlock (xs : List String) : String :=
  let joined := String.intercalate "\n" (xs.map (fun s => "- " ++ s))
  if joined = "" then "- なし" else joined

/-- Source `ReportWriterAgent._create_report_prompt` (`currentDate` stands for
`datetime.now().strftime("%Y年%m月%d日")`, an external input). -/
def reportPrompt (currentDate : String) (achievements tasks issues notionItems : List String) :
    String :=
  let notionBlock :=
    if notionItems.isEmpty then ""
    else "\n\nNotion更新情報:\n" ++ String.intercalate "\n" (notionItems.map (fun s => "- " ++ s))
  "\n以下の情報を基に、" ++ currentDate ++
  "の週報を作成してください。\n\n## 収集した情報\n\n### 成果・実績\n" ++ bulletBlock achievements ++
  "\n\n### タスク状況\n" ++ bulletBlock tasks ++
  "\n\n### 課題・懸念事項\n" ++ bulletBlock issues ++ notionBlock ++
  "\n\n## 作成する週報の形式\n標準の週報テンプレートに従って、簡潔かつ分かりやすくまとめてください。\n各セクションには具体的な内容を記載し、進捗率や期限などの数値情報があれば含めてください。\n"

/-! ### Stage agents (`process` methods) -/

/-- The return dict of `ReportWriterAgent.process` (always
`status = "success"`; the source has no error branch). -/
structure WriterOut where
  status : String
  draft : String
deriving DecidableEq

/-- Source `ReportWriterAgent._parse_meeting_notes`: parse every note and
concatenate the three category lists in input order. -/
def parseMeetingNotes (notes : List String) : List String × List String × List String :=
  notes.foldl
    (fun acc note =>
      let p := DocumentParser.parse note
      (acc.1 ++ p.achievements, acc.2.1 ++ p.tasks, acc.2.2 ++ p.issues))
    ([], [], [])

/-- Source `ReportWriterAgent.process`.  Parameter `notionItems` models
`notion_data.get("items", [])`: it is `[]` whenever no workspace client is
configured, the integration is disabled, or the fetch failed (all those
paths yield an empty dict in the source). -/
def writerProcess (gen : String → String) (meeting_notes : List String)
    (notionItems : List String) (currentDate : String) : WriterOut :=
  let parsed := parseMeetingNotes meeting_notes
  ⟨"success",
   generateResponse gen (some reportWriterSystem)
     (reportPrompt currentDate parsed.1 parsed.2.1 parsed.2.2 notionItems)⟩

/-- The return dict of `ReviewerAgent.process`: either the error dict or the
success dict (whose fields are the parsed review plus the score in
`metadata.review_score`). -/
inductive ReviewerOut
  | err (message : String)
  | ok (review : String) (suggestions : List String) (approval : String) (score : Nat)
deriving DecidableEq

def ReviewerOut.status : ReviewerOut → String
  | .err _ => "error"
  | .ok _ _ _ _ => "success"

/-- Source `ReviewerAgent._review_draft`: one model call, then
`_parse_review_response`. -/
def reviewResultOf (gen : String → String) (draft : String) : RevResult :=
  parseReviewResponse (generateResponse gen (some reviewerSystem) (reviewPrompt draft))

/-- Source `ReviewerAgent.process`. -/
def reviewerProcess (gen : String → String) (draft : String) : ReviewerOut :=
  if draft = "" then .err "週報ドラフトが提供されていません"
  else
    let r := reviewResultOf gen draft
    .ok r.feedback r.suggestions r.approval r.score

/-- The return dict of `ManagerAgent.process`. -/
inductive ManagerOut
  | err (message : String)
  | ok (comment : String) (evaluation : List String) (expectations : String)
      (approval : String)
deriving DecidableEq

def ManagerOut.status : ManagerOut → String
  | .err _ => "error"
  | .ok _ _ _ _ => "success"

/-- Source `ManagerAgent._generate_manager_comment`: one model call, then
`_parse_manager_response`. -/
def managerResultOf (gen : String → String) (report : String) (reviewScore : Nat) : MgrResult :=
  parseManagerResponse (generateResponse gen (some managerSystem) (managerPrompt report reviewScore))

/-- Source `ManagerAgent.process`. -/
def managerProcess (gen : String → String) (final_report : String) (reviewScore : Nat) :
    ManagerOut :=
  if final_report = "" then .err "最終版の週報が提供されていません"
  else
    let m := managerResultOf gen final_report reviewScore
    .ok m.comment m.evaluation m.expectations m.approval

/-! ### Orchestrator (`WeeklyReportSystem.process_weekly_report`) -/

/-- The `details` value of an orchestrator error dict (the failing
failing stage). -/
inductive FailDetails
  | writerD (w : WriterOut)
  | reviewerD (r : ReviewerOut)
  | managerD (m : ManagerOut)
deriving DecidableEq

/-- The orchestrator result: either an error-and-details dict or the
success dict (final report, reviewer result, manager result; the
timestamp field is an external input and is omitted). -/
inductive PipeResult
  | fail (error : String) (details : FailDetails)
  | ok (final_report : String) (review : ReviewerOut) (manager : ManagerOut)
deriving DecidableEq

/-- Source `WeeklyReportSystem.process_weekly_report`.  The four oracles model
the four completion-service call sites (writer draft, reviewer, revision,
manager).  Note the revision call goes through `generate_response` of the
report writer, hence prepends the report-writer system prompt. -/
def process_weekly_report (genW genR genRev genM : String → String)
    (currentDate : String) (notionItems : List String) (meeting_notes : List String) :
    PipeResult :=
  let draftResult := writerProcess genW meeting_notes notionItems currentDate
  if draftResult.status ≠ "success" then .fail "Failed to create draft" (.writerD draftResult)
  else
    let draft := draftResult.draft
    match reviewerProcess genR draft with
    | .err m => .fail "Failed to review draft" (.reviewerD (.err m))
    | .ok fb sug app sc =>
      let improved :=
        if sug = [] then draft
        else generateResponse genRev (some reportWriterSystem) (improvementPrompt draft sug)
      match managerProcess genM improved sc with
      | .err m => .fail "Failed to get manager comment" (.managerD (.err m))
      | .ok c e x a => .ok improved (.ok fb sug app sc) (.ok c e x a)

/-- The draft produced by the DRAFTING stage. -/
def draftOf (genW : String → String) (currentDate : String)
    (notionItems meeting_notes : List String) : String :=
  (writerProcess genW meeting_notes notionItems currentDate).draft

/-- The (possibly revised) report handed to the Manager stage. -/
def improvedOf (genW genR genRev : String → String) (currentDate : String)
    (notionItems meeting_notes : List String) : String :=
  let draft := draftOf genW currentDate notionItems meeting_notes
  let sug := (reviewResultOf genR draft).suggestions
  if sug = [] then draft
  else generateResponse genRev (some reportWriterSystem) (improvementPrompt draft sug)

/-- The final report of a successful pipeline run. -/
def finalReportOf : PipeResult → Option String
  | .fail _ _ => none
  | .ok fr _ _ => some fr

/-- Whether an orchestrator result is the writer-failure error dict. -/
def isCreateDraftFailure : PipeResult → Bool
  | .fail e _ => e = "Failed to create draft"
  | .ok _ _ _ => false

/-! ### Derived predicates used in theorem statements -/

/-- The stripped line contains none of the four section-header phrases of
`_parse_review_response`, i.e. it is a content line (or blank). -/
def noRevHeader (l : String) : Bool :=
  let t := pyStripS l
  !(hasSubS "フィードバック" t) && !(hasSubS "具体的な改善提案" t) &&
  !(hasSubS "承認ステータス" t) && !(hasSubS "スコア" t)

/-- The stripped line contains none of the six section-header phrases of
`_parse_manager_response`. -/
def noMgrHeader (l : String) : Bool :=
  let t := pyStripS l
  !(hasSubS "総評" t) && !(hasSubS "特に評価する点" t) && !(hasSubS "改善提案" t) &&
  !(hasSubS "アドバイス" t) && !(hasSubS "来週への期待" t) && !(hasSubS "承認ステータス" t)

/-- No line of the reply contains a reviewer section header. -/
def allNoRevHeader (response : String) : Bool :=
  (splitLines response).all noRevHeader

/-- No line of the reply contains a manager section header. -/
def allNoMgrHeader (response : String) : Bool :=
  (splitLines response).all noMgrHeader

/-- Number of lines `text.split("\n")` produces. -/
def numLines (text : String) : Nat :=
  (splitOnNl text.toList).length

end WeeklyReport

namespace WeeklyReport

/-! ### Shared helper lemmas -/

/-- An invariant preserved by every step of a fold holds of the fold. -/
theorem foldl_pres {α β : Type} (P : α → Prop) (f : α → β → α)
    (hstep : ∀ a b, P a → P (f a b)) :
    ∀ (l : List β) (a : α), P a → P (l.foldl f a)
  | [], _, h => h
  | b :: l, a, h => foldl_pres P f hstep l (f a b) (hstep a b h)

/-- A fold over elements that all fix the accumulator returns the
accumulator. -/
theorem foldl_fix {α β : Type} (f : α → β → α) (a : α) (Q : β → Prop)
    (hfix : ∀ b, Q b → f a b = a) :
    ∀ (l : List β), (∀ b ∈ l, Q b) → l.foldl f a = a
  | [], _ => rfl
  | b :: l, h => by
    rw [List.foldl_cons, hfix b (h b (List.mem_cons_self b l))]
    exact foldl_fix f a Q hfix l (fun x hx => h x (List.mem_cons_of_mem _ hx))

theorem appendOpt_len (xs : List (List Char)) (o : Option (List Char)) :
    (DocumentParser.appendOpt xs o).length ≤ xs.length + 1 := by
  cases o <;> simp [DocumentParser.appendOpt]

theorem primaryStep_len (acc : DocumentParser.Cats) (l : List Char) :
    (DocumentParser.primaryStep acc l).achievements.length ≤ acc.achievements.length + 1 ∧
    (DocumentParser.primaryStep acc l).tasks.length ≤ acc.tasks.length + 1 ∧
    (DocumentParser.primaryStep acc l).issues.length ≤ acc.issues.length + 1 := by
  cases hb : (pyStrip l).isEmpty with
  | true =>
    simp only [DocumentParser.primaryStep, hb, if_true]
    exact ⟨Nat.le_succ _, Nat.le_succ _, Nat.le_succ _⟩
  | false =>
    simp only [DocumentParser.primaryStep, hb, Bool.false_eq_true, if_false]
    exact ⟨appendOpt_len .., appendOpt_len .., appendOpt_len ..⟩

theorem primaryFold_len :
    ∀ (lines : List (List Char)) (acc : DocumentParser.Cats),
      (lines.foldl DocumentParser.primaryStep acc).achievements.length ≤
        acc.achievements.length + lines.length ∧
      (lines.foldl DocumentParser.primaryStep acc).tasks.length ≤
        acc.tasks.length + lines.length ∧
      (lines.foldl DocumentParser.primaryStep acc).issues.length ≤
        acc.issues.length + lines.length
  | [], acc => ⟨Nat.le_refl _, Nat.le_refl _, Nat.le_refl _⟩
  | l :: ls, acc => by
    have h1 := primaryStep_len acc l
    have h2 := primaryFold_len ls (DocumentParser.primaryStep acc l)
    refine ⟨?_, ?_, ?_⟩ <;> simp only [List.foldl_cons, List.length_cons] <;> omega

theorem fallbackStep_len (st : DocumentParser.FBState) (l : List Char) :
    (DocumentParser.fallbackStep st l).res.achievements.length ≤ st.res.achievements.length + 1 ∧
    (DocumentParser.fallbackStep st l).res.tasks.length ≤ st.res.tasks.length + 1 ∧
    (DocumentParser.fallbackStep st l).res.issues.length ≤ st.res.issues.length + 1 := by
  cases hb : (pyStrip l).isEmpty with
  | true =>
    simp only [DocumentParser.fallbackStep, hb, if_true]
    exact ⟨Nat.le_succ _, Nat.le_succ _, Nat.le_succ _⟩
  | false =>
    simp only [DocumentParser.fallbackStep, hb, Bool.false_eq_true, if_false]
    cases hc : DocumentParser.fallbackSection (pyStrip l) st.cur with
    | none => exact ⟨Nat.le_succ _, Nat.le_succ _, Nat.le_succ _⟩
    | some cat =>
      cases hbul : DocumentParser.startsBullet (pyStrip l) with
      | false =>
        simp only [Bool.false_eq_true, if_false]
        exact ⟨Nat.le_succ _, Nat.le_succ _, Nat.le_succ _⟩
      | true =>
        simp only [if_true]
        cases hcon : (DocumentParser.cleanText (pyStrip l)).isEmpty with
        | true =>
          simp only [if_true]
          exact ⟨Nat.le_succ _, Nat.le_succ _, Nat.le_succ _⟩
        | false =>
          simp only [Bool.false_eq_true, if_false]
          cases cat <;> simp [DocumentParser.addTo]

theorem fallbackFold_len :
    ∀ (lines : List (List Char)) (st : DocumentParser.FBState),
      (lines.foldl DocumentParser.fallbackStep st).res.achievements.length ≤
        st.res.achievements.length + lines.length ∧
      (lines.foldl DocumentParser.fallbackStep st).res.tasks.length ≤
        st.res.tasks.length + lines.length ∧
      (lines.foldl DocumentParser.fallbackStep st).res.issues.length ≤
        st.res.issues.length + lines.length
  | [], st => ⟨Nat.le_refl _, Nat.le_refl _, Nat.le_refl _⟩
  | l :: ls, st => by
    have h1 := fallbackStep_len st l
    have h2 := fallbackFold_len ls (DocumentParser.fallbackStep st l)
    refine ⟨?_, ?_, ?_⟩ <;> simp only [List.foldl_cons, List.length_cons] <;> omega

end WeeklyReport

namespace WeeklyReport

/-! ### C1 -/

/-- C1 counterexample: the single non-blank line `"Done: TODO: x"` is
appended to *two* categories — `achievements` (via the
`(?:Done|DONE|done)[：:]` pattern, capturing `"TODO: x"`) and `tasks` (via
the `(?:タスク|作業|進行中|TODO)[：:]` pattern found mid-line by
`re.search`, capturing `"x"`).  The `break` in `parse` only leaves the
inner pattern loop, not the loop over categories, so a line is not limited
to one category. -/
theorem c1_counterexample :
    DocumentParser.parse "Done: TODO: x" =
      ⟨["TODO: x"], ["x"], [], some "Done: TODO: x"⟩ := by decide

/-- C1 amended: each non-blank line is appended at most once to *each*
category list (the `break` prevents duplicates within a category), but
it may be appended to several categories; hence the length of every
category list is bounded by the number of input lines. -/
theorem c1_amended (text : String) :
    (DocumentParser.parse text).achievements.length ≤ numLines text ∧
    (DocumentParser.parse text).tasks.length ≤ numLines text ∧
    (DocumentParser.parse text).issues.length ≤ numLines text := by
  simp only [DocumentParser.parse, numLines]
  split
  · have h := fallbackFold_len (splitOnNl text.toList) ⟨none, DocumentParser.emptyCats⟩
    simp only [DocumentParser.emptyCats, List.length_nil, Nat.zero_add] at h
    simp only [DocumentParser.fallbackParse, List.length_map]
    exact h
  · have h := primaryFold_len (splitOnNl text.toList) DocumentParser.emptyCats
    simp only [DocumentParser.emptyCats, List.length_nil, Nat.zero_add] at h
    simp only [DocumentParser.primaryPass, List.length_map]
    exact h

/-! ### C3 -/

/-- C3 counterexample: for the input `"hello"` no primary pattern matches,
so `parse` replaces the whole result with the `_fallback_parse` dict, which
has no `raw_text` key — the returned summary does not contain the input as
`raw_text`. -/
theorem c3_counterexample : (DocumentParser.parse "hello").raw_text = none := by decide

/-- C3 amended: `parse` returns `raw_text` equal to the input string
exactly when the primary pattern pass produced at least one entry; when
the result is produced by the fallback second pass, the `raw_text` field
is absent from the returned dict. -/
theorem c3_amended (text : String) :
    (DocumentParser.parse text).raw_text =
      if DocumentParser.fallbackTriggered text then none else some text := by
  simp only [DocumentParser.parse, DocumentParser.fallbackTriggered]
  split <;> rfl

/-! ### Reviewer / Manager step lemmas -/

theorem noRevHeader_spec {l : String} (h : noRevHeader l = true) :
    hasSubS "フィードバック" (pyStripS l) = false ∧
    hasSubS "具体的な改善提案" (pyStripS l) = false ∧
    hasSubS "承認ステータス" (pyStripS l) = false ∧
    hasSubS "スコア" (pyStripS l) = false := by
  simp only [noRevHeader, Bool.and_eq_true, Bool.not_eq_true'] at h
  exact ⟨h.1.1.1, h.1.1.2, h.1.2, h.2⟩

theorem noMgrHeader_spec {l : String} (h : noMgrHeader l = true) :
    hasSubS "総評" (pyStripS l) = false ∧
    hasSubS "特に評価する点" (pyStripS l) = false ∧
    hasSubS "改善提案" (pyStripS l) = false ∧
    hasSubS "アドバイス" (pyStripS l) = false ∧
    hasSubS "来週への期待" (pyStripS l) = false ∧
    hasSubS "承認ステータス" (pyStripS l) = false := by
  simp only [noMgrHeader, Bool.and_eq_true, Bool.not_eq_true'] at h
  exact ⟨h.1.1.1.1.1, h.1.1.1.1.2, h.1.1.1.2, h.1.1.2, h.1.2, h.2⟩

/-- A header-free line leaves a sectionless reviewer state unchanged. -/
theorem revStep_none_fix {st : RevState} (hcur : st.cur = none) {l : String}
    (hl : noRevHeader l = true) : revStep st l = st := by
  obtain ⟨h1, h2, h3, h4⟩ := noRevHeader_spec hl
  simp only [revStep, h1, h2, h3, h4, Bool.false_eq_true, if_false, hcur]
  split <;> rfl

/-- A header-free, non-blank line inside the score section overwrites the
score with the digits of the line. -/
theorem revStep_score_content {st : RevState} (hcur : st.cur = some .score) {l : String}
    (hl : noRevHeader l = true) (hne : pyStripS l ≠ "") :
    revStep st l = { st with score := scoreOf (pyStripS l) } := by
  obtain ⟨h1, h2, h3, h4⟩ := noRevHeader_spec hl
  simp only [revStep, h1, h2, h3, h4, Bool.false_eq_true, if_false, hcur, ne_eq, hne,
    not_false_eq_true, if_true]

/-- A header-free line starting with a digit 1–9 inside the suggestions
section is appended verbatim (after stripping) to the suggestion list. -/
theorem revStep_sugg_content {st : RevState} (hcur : st.cur = some .suggestions) {l : String}
    (hl : noRevHeader l = true) (hd : startsWith19 (pyStripS l) = true) :
    revStep st l = { st with suggestions := st.suggestions ++ [pyStripS l] } := by
  obtain ⟨h1, h2, h3, h4⟩ := noRevHeader_spec hl
  have hne : pyStripS l ≠ "" := by
    intro he
    rw [he] at hd
    exact Bool.false_ne_true hd
  simp only [revStep, h1, h2, h3, h4, Bool.false_eq_true, if_false, hcur, ne_eq, hne,
    not_false_eq_true, if_true, hd]

/-- A header-free line starting with `-` inside the manager evaluation
section is appended with the single leading `-` removed and stripped. -/
theorem mgrStep_eval_content {st : MgrState} (hcur : st.cur = some .evaluation) {l : String}
    (hl : noMgrHeader l = true) (hd : firstCharIsDash (pyStripS l) = true) :
    mgrStep st l =
      { st with evaluation := st.evaluation ++ [pyStripS ((pyStripS l).toList.drop 1).asString] } := by
  obtain ⟨h1, h2, h3, h4, h5, h6⟩ := noMgrHeader_spec hl
  have hne : pyStripS l ≠ "" := by
    intro he
    rw [he] at hd
    exact Bool.false_ne_true hd
  simp only [mgrStep, h1, h2, h3, h4, h5, h6, Bool.false_eq_true, Bool.or_self, if_false,
    hcur, ne_eq, hne, not_false_eq_true, if_true, hd]

/-- A header-free line leaves a sectionless manager state unchanged. -/
theorem mgrStep_none_fix {st : MgrState} (hcur : st.cur = none) {l : String}
    (hl : noMgrHeader l = true) : mgrStep st l = st := by
  obtain ⟨h1, h2, h3, h4, h5, h6⟩ := noMgrHeader_spec hl
  simp only [mgrStep, h1, h2, h3, h4, h5, h6, Bool.false_eq_true, Bool.or_self, if_false, hcur]
  split <;> rfl

/-- A header-free line leaves a manager state that sits in the
改善提案・アドバイス section unchanged: the content of that section has no
accumulation branch. -/
theorem mgrStep_advice_fix {st : MgrState} (hcur : st.cur = some .advice) {l : String}
    (hl : noMgrHeader l = true) : mgrStep st l = st := by
  obtain ⟨h1, h2, h3, h4, h5, h6⟩ := noMgrHeader_spec hl
  simp only [mgrStep, h1, h2, h3, h4, h5, h6, Bool.false_eq_true, Bool.or_self, if_false, hcur]
  split <;> rfl

/-! ### C2 -/

/-- C2 counterexample: the reply consisting of exactly the line
`"スコア: 8/10"` yields score 0, not 8 — the line contains the phrase
`スコア`, so the parser treats it as the score *section header* and never
extracts digits from it. -/
theorem c2_counterexample : parseReviewResponse "スコア: 8/10" = ⟨"", [], "要修正", 0⟩ := by
  decide

/-- C2 amended: a line containing `スコア` is a section header and
contributes no digits (so the one-line reply `"スコア: 8/10"` yields the
default 0).  Digit extraction applies to the non-blank, header-free lines
*after* the `スコア` header: each such line overwrites the score with all
its digit characters parsed as an integer — `scoreOf`, which is 0 when the
line has no digits (the `ValueError` default). -/
theorem c2_amended (l : String) (hne : pyStripS l ≠ "") (hl : noRevHeader l = true) :
    (parseReviewLines ["スコア: 8/10"]).score = 0 ∧
    (parseReviewLines ["スコア: 8/10", l]).score = scoreOf (pyStripS l) := by
  constructor
  · decide
  · have h1 : revStep initRevState "スコア: 8/10" = { initRevState with cur := some .score } := by
      decide
    show (parseReviewLines ["スコア: 8/10", l]).score = scoreOf (pyStripS l)
    unfold parseReviewLines
    simp only [List.foldl_cons, List.foldl_nil, h1]
    rw [revStep_score_content rfl hl hne]

/-- C2 witness: at `l = "8/10"` the hypotheses hold and the score-section
content line yields `scoreOf "8/10" = 810` (all digit characters
concatenated), not 8. -/
theorem c2_witness :
    (parseReviewLines ["スコア: 8/10"]).score = 0 ∧
    (parseReviewLines ["スコア: 8/10", "8/10"]).score = scoreOf (pyStripS "8/10") :=
  c2_amended "8/10" (by decide) (by decide)

/-! ### C4 -/

/-- C4 counterexample: for the reply
`"承認ステータス\nほぼ承認です\nスコア\n8/10"` the parsed approval is the
verbatim line `"ほぼ承認です"` — none of 承認 / 条件付き承認 / 要修正 —
and the parsed score is 810, far outside 0–10. -/
theorem c4_counterexample :
    parseReviewResponse "承認ステータス\nほぼ承認です\nスコア\n8/10" =
      ⟨"", [], "ほぼ承認です", 810⟩ ∧
    10 < (parseReviewResponse "承認ステータス\nほぼ承認です\nスコア\n8/10").score := by
  decide

/-- C4 amended: the approval field is either the default `要修正` or a
verbatim reply line that merely *contains* `承認` as a substring — it is
not restricted to the three listed values — and the score is an arbitrary
natural number (the digits of the last digit-bearing score-section content
line), not bounded by 10. -/
theorem c4_amended (response : String) :
    (parseReviewResponse response).approval = "要修正" ∨
    hasSubS "承認" (parseReviewResponse response).approval = true := by
  have key := foldl_pres
    (fun st : RevState => st.approval = "要修正" ∨ hasSubS "承認" st.approval = true)
    revStep ?_ (splitLines response) initRevState (Or.inl rfl)
  · exact key
  · intro st b h
    obtain ⟨fb, sug, app, sc, cur⟩ := st
    simp only [revStep]
    by_cases e1 : hasSubS "フィードバック" (pyStripS b) = true
    · rw [if_pos e1]; exact h
    rw [if_neg e1]
    by_cases e2 : hasSubS "具体的な改善提案" (pyStripS b) = true
    · rw [if_pos e2]; exact h
    rw [if_neg e2]
    by_cases e3 : hasSubS "承認ステータス" (pyStripS b) = true
    · rw [if_pos e3]; exact h
    rw [if_neg e3]
    by_cases e4 : hasSubS "スコア" (pyStripS b) = true
    · rw [if_pos e4]; exact h
    rw [if_neg e4]
    by_cases e5 : pyStripS b ≠ ""
    · rw [if_pos e5]
      cases cur with
      | none => exact h
      | some s =>
        cases s with
        | feedback => exact h
        | suggestions =>
          by_cases e6 : startsWith19 (pyStripS b) = true
          · rw [if_pos e6]; exact h
          · rw [if_neg e6]; exact h
        | approval =>
          by_cases e6 : hasSubS "承認" (pyStripS b) = true
          · rw [if_pos e6]
            exact Or.inr e6
          · rw [if_neg e6]; exact h
        | score => exact h
    · rw [if_neg e5]; exact h

/-! ### C5 -/

/-- C5 counterexample: a reviewer suggestion line is appended verbatim —
`suggestions.append(line)` — so the leading list marker `1` of
`"1. 具体例を追加する"` is *not* stripped. -/
theorem c5_counterexample :
    (parseReviewResponse "具体的な改善提案\n1. 具体例を追加する").suggestions =
      ["1. 具体例を追加する"] := by decide

/-- C5 amended: only the evaluation-points list of the Manager strips a single
leading list-marker character (`line[1:].strip()` after a `-` test); the
Reviewer suggestion list appends the content line verbatim (it must
start with a digit 1–9, and that marker is kept). -/
theorem c5_amended :
    (∀ l : String, noRevHeader l = true → startsWith19 (pyStripS l) = true →
      (parseReviewLines ["### 具体的な改善提案", l]).suggestions = [pyStripS l]) ∧
    (∀ l : String, noMgrHeader l = true → firstCharIsDash (pyStripS l) = true →
      (parseManagerLines ["### 特に評価する点", l]).evaluation =
        [pyStripS ((pyStripS l).toList.drop 1).asString]) := by
  constructor
  · intro l hl hd
    have h1 : revStep initRevState "### 具体的な改善提案" =
        { initRevState with cur := some .suggestions } := by decide
    unfold parseReviewLines
    simp only [List.foldl_cons, List.foldl_nil, h1]
    rw [revStep_sugg_content rfl hl hd]
    simp [initRevState]
  · intro l hl hd
    have h1 : mgrStep initMgrState "### 特に評価する点" =
        { initMgrState with cur := some .evaluation } := by decide
    unfold parseManagerLines mgrFold
    simp only [List.foldl_cons, List.foldl_nil, h1]
    rw [mgrStep_eval_content rfl hl hd]
    simp [initMgrState]

/-- C5 witness: concrete bullet lines through both list sections — the
reviewer keeps `"1. 改善する"` verbatim, the manager turns
`"- 成果が明確"` into `"成果が明確"`. -/
theorem c5_witness :
    (parseReviewLines ["### 具体的な改善提案", "1. 改善する"]).suggestions =
      [pyStripS "1. 改善する"] ∧
    (parseManagerLines ["### 特に評価する点", "- 成果が明確"]).evaluation =
      [pyStripS ((pyStripS "- 成果が明確").toList.drop 1).asString] :=
  ⟨c5_amended.1 "1. 改善する" (by decide) (by decide),
   c5_amended.2 "- 成果が明確" (by decide) (by decide)⟩

/-! ### C8 -/

/-- C8 confirmed: a model reply none of whose lines contains a section
header yields the all-default parse results — reviewer:
`{feedback "", suggestions [], approval 要修正, score 0}`; manager:
`{comment "", evaluation [], expectations "", approval 承認}` — and no
error is raised (the parsers are total functions). -/
theorem c8_defaults :
    (∀ response, allNoRevHeader response = true →
      parseReviewResponse response = ⟨"", [], "要修正", 0⟩) ∧
    (∀ response, allNoMgrHeader response = true →
      parseManagerResponse response = ⟨"", [], "", "承認"⟩) := by
  constructor
  · intro response h
    rw [allNoRevHeader, List.all_eq_true] at h
    have hfix : (splitLines response).foldl revStep initRevState = initRevState :=
      foldl_fix revStep initRevState (fun l => noRevHeader l = true)
        (fun b hb => revStep_none_fix rfl hb) (splitLines response) h
    unfold parseReviewResponse parseReviewLines
    rw [hfix]
    decide
  · intro response h
    rw [allNoMgrHeader, List.all_eq_true] at h
    have hfix : (splitLines response).foldl mgrStep initMgrState = initMgrState :=
      foldl_fix mgrStep initMgrState (fun l => noMgrHeader l = true)
        (fun b hb => mgrStep_none_fix rfl hb) (splitLines response) h
    unfold parseManagerResponse parseManagerLines mgrFold
    rw [hfix]
    decide

/-- C8 witness: a concrete header-free two-line reply yields the default
reviewer and manager results. -/
theorem c8_witness :
    parseReviewResponse "本日は晴天なり\nよろしくお願いします" = ⟨"", [], "要修正", 0⟩ ∧
    parseManagerResponse "本日は晴天なり\nよろしくお願いします" = ⟨"", [], "", "承認"⟩ :=
  ⟨c8_defaults.1 _ (by decide), c8_defaults.2 _ (by decide)⟩

/-! ### C10 -/

/-- C10 confirmed: two manager replies that differ only in header-free
content lines sitting inside the 改善提案・アドバイス (advice) section
parse to equal manager comments — the advice-section content has no
accumulation branch and is discarded, so it never appears in any field.
(`pre`/`post` are the shared surrounding lines of the two replies, `L1`
and `L2` the differing advice-section content lines.) -/
theorem c10_advice_discarded (pre L1 L2 post : List String)
    (hsec : (mgrFold pre).cur = some .advice)
    (h1 : ∀ l ∈ L1, noMgrHeader l = true)
    (h2 : ∀ l ∈ L2, noMgrHeader l = true) :
    parseManagerLines (pre ++ L1 ++ post) = parseManagerLines (pre ++ L2 ++ post) := by
  unfold mgrFold at hsec
  have hfix1 : L1.foldl mgrStep (pre.foldl mgrStep initMgrState) =
      pre.foldl mgrStep initMgrState :=
    foldl_fix mgrStep _ (fun l => noMgrHeader l = true)
      (fun b hb => mgrStep_advice_fix hsec hb) L1 h1
  have hfix2 : L2.foldl mgrStep (pre.foldl mgrStep initMgrState) =
      pre.foldl mgrStep initMgrState :=
    foldl_fix mgrStep _ (fun l => noMgrHeader l = true)
      (fun b hb => mgrStep_advice_fix hsec hb) L2 h2
  unfold parseManagerLines mgrFold
  rw [List.foldl_append, List.foldl_append, hfix1,
    List.foldl_append, List.foldl_append, hfix2]

/-- C10 witness: with the advice header in front, an advice content line
(`"- 社外秘の助言"`) can be replaced by nothing without changing the
parsed result. -/
theorem c10_witness :
    parseManagerLines (["### 改善提案・アドバイス"] ++ ["- 社外秘の助言"] ++ ["### 承認ステータス"]) =
      parseManagerLines (["### 改善提案・アドバイス"] ++ [] ++ ["### 承認ステータス"]) :=
  c10_advice_discarded ["### 改善提案・アドバイス"] ["- 社外秘の助言"] []
    ["### 承認ステータス"] (by decide) (by decide) (by decide)

/-! ### C6 -/

/-- C6 confirmed: (1) the Manager `process` returns the
`status="error"` dict (it does not raise) whenever the final report is
empty, and likewise (2) the Reviewer `process` when its draft is empty;
(3) the orchestrator surfaces an empty final report as
`{error: "Failed to get manager comment", details: <manager error dict>}`;
and (4) an empty draft short-circuits at the review stage with
`{error: "Failed to review draft", ...}`, the result being independent of
the revision and manager oracles — no later stage runs. -/
theorem c6_error_shortcircuit :
    (∀ (gen : String → String) fr sc, fr = "" →
      (managerProcess gen fr sc).status = "error" ∧
      managerProcess gen fr sc = .err "最終版の週報が提供されていません") ∧
    (∀ (gen : String → String) d, d = "" →
      (reviewerProcess gen d).status = "error" ∧
      reviewerProcess gen d = .err "週報ドラフトが提供されていません") ∧
    (∀ (genW genR genRev genM : String → String) cd ni notes,
      draftOf genW cd ni notes ≠ "" →
      improvedOf genW genR genRev cd ni notes = "" →
      process_weekly_report genW genR genRev genM cd ni notes =
        .fail "Failed to get manager comment"
          (.managerD (.err "最終版の週報が提供されていません"))) ∧
    (∀ (genW genR genRev genRev' genM genM' : String → String) cd ni notes,
      draftOf genW cd ni notes = "" →
      process_weekly_report genW genR genRev genM cd ni notes =
        .fail "Failed to review draft"
          (.reviewerD (.err "週報ドラフトが提供されていません")) ∧
      process_weekly_report genW genR genRev genM cd ni notes =
        process_weekly_report genW genR genRev' genM' cd ni notes) := by
  refine ⟨?_, ?_, ?_, ?_⟩
  · intro gen fr sc h
    subst h
    exact ⟨rfl, rfl⟩
  · intro gen d h
    subst h
    exact ⟨rfl, rfl⟩
  · intro genW genR genRev genM cd ni notes hd himp
    unfold draftOf at hd
    unfold improvedOf draftOf at himp
    unfold process_weekly_report
    simp only [WriterOut.status, ne_eq, not_true_eq_false, if_false,
      reviewerProcess, hd, ite_false]
    simp only [himp, managerProcess, if_pos]
    rw [if_neg fun hc => hc rfl]
  · intro genW genR genRev genRev' genM genM' cd ni notes hd
    unfold draftOf at hd
    have aux : ∀ gRev gM : String → String,
        process_weekly_report genW genR gRev gM cd ni notes =
          .fail "Failed to review draft"
            (.reviewerD (.err "週報ドラフトが提供されていません")) := by
      intro gRev gM
      unfold process_weekly_report
      simp only [WriterOut.status, ne_eq, not_true_eq_false, if_false,
        reviewerProcess, hd, ite_true]
      rw [if_neg fun hc => hc rfl]
    exact ⟨aux genRev genM, (aux genRev genM).trans (aux genRev' genM').symm⟩

/-- C6 witness: concrete oracles exercising both error paths — a writer
oracle returning the empty draft trips the reviewer short-circuit, and a
revision oracle returning an empty improved report trips the manager
error. -/
theorem c6_witness :
    managerProcess (fun _ => "返信") "" 5 = .err "最終版の週報が提供されていません" ∧
    reviewerProcess (fun _ => "返信") "" = .err "週報ドラフトが提供されていません" ∧
    process_weekly_report (fun _ => "草稿") (fun _ => "具体的な改善提案\n1. 改善する")
        (fun _ => "") (fun _ => "コメント") "2024年12月20日" [] [] =
      .fail "Failed to get manager comment"
        (.managerD (.err "最終版の週報が提供されていません")) ∧
    process_weekly_report (fun _ => "") (fun _ => "返信") (fun _ => "改訂")
        (fun _ => "コメント") "2024年12月20日" [] [] =
      .fail "Failed to review draft" (.reviewerD (.err "週報ドラフトが提供されていません")) :=
  ⟨(c6_error_shortcircuit.1 _ "" 5 rfl).2,
   (c6_error_shortcircuit.2.1 _ "" rfl).2,
   c6_error_shortcircuit.2.2.1 _ _ _ _ _ _ _ (by decide) (by decide),
   (c6_error_shortcircuit.2.2.2 _ _ _ (fun _ => "改訂") _ (fun _ => "コメント") _ _ _
     (by decide)).1⟩

/-! ### C7 -/

/-- C7 confirmed: when the reviewer suggestion list is empty (and the
draft is non-empty so the pipeline reaches the revision step), the final
report handed to the Manager and returned by the orchestrator is the
original draft verbatim, and the whole result is independent of the
revision oracle — no revision completion call is made. -/
theorem c7_revision_skip (genW genR genRev genRev' genM : String → String)
    (cd : String) (ni notes : List String)
    (hd : draftOf genW cd ni notes ≠ "")
    (hs : (reviewResultOf genR (draftOf genW cd ni notes)).suggestions = []) :
    finalReportOf (process_weekly_report genW genR genRev genM cd ni notes) =
      some (draftOf genW cd ni notes) ∧
    process_weekly_report genW genR genRev genM cd ni notes =
      process_weekly_report genW genR genRev' genM cd ni notes := by
  unfold draftOf at hd hs
  have aux : ∀ gRev : String → String,
      process_weekly_report genW genR gRev genM cd ni notes =
        process_weekly_report genW genR genRev genM cd ni notes := by
    intro gRev
    unfold process_weekly_report
    simp only [WriterOut.status, ne_eq, not_true_eq_false, if_false,
      reviewerProcess, hd, ite_false, hs, ite_true]
  constructor
  · unfold process_weekly_report
    simp only [WriterOut.status, ne_eq, not_true_eq_false, if_false,
      reviewerProcess, hd, ite_false, hs, ite_true, managerProcess]
    rfl
  · exact (aux genRev').symm

/-- C7 witness: a reviewer oracle that returns a headerless reply (so the
suggestion list is empty) makes the pipeline hand the original draft
through unchanged, for two different revision oracles. -/
theorem c7_witness :
    finalReportOf (process_weekly_report (fun _ => "草稿") (fun _ => "所見なし")
        (fun _ => "改訂一") (fun _ => "コメント") "2024年12月20日" [] []) =
      some (draftOf (fun _ => "草稿") "2024年12月20日" [] []) ∧
    process_weekly_report (fun _ => "草稿") (fun _ => "所見なし") (fun _ => "改訂一")
        (fun _ => "コメント") "2024年12月20日" [] [] =
      process_weekly_report (fun _ => "草稿") (fun _ => "所見なし") (fun _ => "改訂二")
        (fun _ => "コメント") "2024年12月20日" [] [] :=
  c7_revision_skip (fun _ => "草稿") (fun _ => "所見なし") (fun _ => "改訂一")
    (fun _ => "改訂二") (fun _ => "コメント") "2024年12月20日" [] []
    (by decide) (by decide)

/-! ### C9 -/

/-- C9 confirmed: `ReportWriterAgent.process` has no error branch — it
returns `status="success"` for every input, including an empty
meeting-notes list — so the orchestrator `"Failed to create draft"`
error result is unreachable. -/
theorem c9_writer_always_succeeds :
    (∀ (gen : String → String) notes ni cd, (writerProcess gen notes ni cd).status = "success") ∧
    (∀ (genW genR genRev genM : String → String) cd ni notes,
      isCreateDraftFailure (process_weekly_report genW genR genRev genM cd ni notes) = false) := by
  constructor
  · intro gen notes ni cd
    rfl
  · intro genW genR genRev genM cd ni notes
    unfold process_weekly_report
    dsimp only
    split
    · rename_i hcon
      exact absurd rfl hcon
    · split
      · rfl
      · split
        · rfl
        · rfl

end WeeklyReport
